import Mathlib

/-!
Shallow embedding of the pulsar-js producer (src/index.js, the current
module variant) in Lean 4.  The command builder (`Publisher.#command`),
the subprocess record handler (`Publisher.#process`), the close handler
of `publish`, and the authentication setters are translated as
executable Lean definitions; the theorems below settle the frozen claims
about them.
-/

/-- A thrown JavaScript runtime error that aborts command construction. -/
inductive JsErr
  | typeError
deriving DecidableEq

/-- JSON values, used for payloads of JavaScript type object. -/
inductive JsonVal
  | nullV
  | boolJ (b : Bool)
  | numJ (n : Int)
  | strJ (s : String)
  | arrJ (elems : List JsonVal)
  | objJ (fields : List (String × JsonVal))

/-- A message payload as accepted by publish: typeof dispatch needs the
string / object / other distinction (`null` and arrays are objects). -/
inductive Payload
  | str (s : String)
  | obj (j : JsonVal)
  | num (n : Int)
  | boolP (b : Bool)

/-- A per-call option value as it appears in the options object. -/
inductive OptVal
  | str (s : String)
  | num (n : Int)
  | boolO (b : Bool)
  | strList (xs : List String)
  | strMap (xs : List (String × String))
deriving DecidableEq

/-- The authentication record stored in the Publisher's private slot.
Fields mirror the JavaScript object properties; a `none` field models a
property that is absent from the object.  `clientId` and `clientID` are
two distinct property names in the source (the setter writes the first,
the builder reads the second), so both appear here. -/
structure AuthConfig where
  type : Option String := none
  token : Option String := none
  allowUnverified : Bool := false
  certPath : Option String := none
  keyPath : Option String := none
  caCert : Option String := none
  issuer : Option String := none
  privateKey : Option String := none
  audience : Option String := none
  clientId : Option String := none
  clientID : Option String := none
  username : Option String := none
  password : Option String := none
  url : Option String := none
  domain : Option String := none
  tenant : Option String := none
  service : Option String := none
  proxy : Option String := none
  keyId : Option String := none
deriving DecidableEq

/-- The Publisher's private state: connection string, producer config and
the mutable authentication slot (initialised to an object with a null
type tag, hence always truthy). -/
structure PublisherState where
  connection_string : String
  timeout : Int := 30
  name : String := "manual-producer"
  properties : List (String × String) := []
  authentication : AuthConfig := {}
deriving DecidableEq

/-- Per-call options for publish.  `entries` models `Object.entries` of
the options object in insertion order for the recognized message-flag
keys; `test`, `authentication` and `auth` are read directly by name in
the source (the entries loop has no case for those keys, so listing them
separately loses nothing). -/
structure CallOptions where
  entries : List (String × OptVal) := []
  test : Bool := false
  authentication : Option AuthConfig := none
  auth : Option AuthConfig := none

/-- The template `"${v}"`: wrap a string in literal double quotes. -/
def jsQuote (s : String) : String := "\"" ++ s ++ "\""

/-- `message.replace(/\"/g, '\\"')`: escape every double quote. -/
def escQuotes (s : String) : String :=
  String.mk (s.toList.foldr (fun c acc => if c = '"' then '\\' :: '"' :: acc else c :: acc) [])

/-- A JavaScript whitespace character, as removed by `String.trim`. -/
def isJsSpace (c : Char) : Bool :=
  c = ' ' || c = '\t' || c = '\n' || c = '\r' || c = '\x0b' || c = '\x0c'

/-- `key.trim()`: strip leading and trailing whitespace. -/
def jsTrim (s : String) : String :=
  String.mk (((s.toList.dropWhile isJsSpace).reverse.dropWhile isJsSpace).reverse)

/-- `key.toLowerCase()` for the ASCII keys the builder compares. -/
def jsLower (s : String) : String := String.mk (s.toList.map Char.toLower)

/-- `token.startsWith(p)`. -/
def jsStartsWith (s p : String) : Bool := p.toList.isPrefixOf s.toList

/-- JavaScript string coercion of an option value, as in `${value}`. -/
def toJsString : OptVal → String
  | .str s => s
  | .num n => toString n
  | .boolO b => cond b "true" "false"
  | .strList xs => String.intercalate "," xs
  | .strMap _ => "[object Object]"

/-- `for (const x of value)`: arrays yield their elements, strings yield
their characters, anything else is not iterable and throws. -/
def jsIterate : OptVal → Except JsErr (List String)
  | .strList xs => .ok xs
  | .str s => .ok (s.toList.map (fun ch => String.singleton ch))
  | _ => .error .typeError

/-- `Object.entries(value)`: objects yield key/value pairs, arrays and
strings yield index/element pairs, primitives yield nothing. -/
def jsObjectEntries : OptVal → List (String × String)
  | .strMap xs => xs
  | .strList xs => xs.enum.map (fun p => (toString p.1, p.2))
  | .str s => s.toList.enum.map (fun p => (toString p.1, String.singleton p.2))
  | _ => []

/-- `field && command.unshift(flag, field)`: prepend the flag/value pair
when the optional string field is truthy (present and non-empty). -/
def unshiftIf (v : Option String) (flag : String) (cmd : List String) : List String :=
  match v with
  | some s => if s = "" then cmd else flag :: s :: cmd
  | none => cmd

/-- The authorization-flag switch of `Publisher.#command` (source lines
189-225): dispatch on the stored `type` tag and prepend the pairs for
the truthy fields, in the source's unshift order. -/
def authApply (a : AuthConfig) (cmd : List String) : List String :=
  match a.type with
  | some t =>
    if t = "oidc" then
      let cmd := if a.allowUnverified then "--allow-unverified" :: cmd else cmd
      unshiftIf a.token "--jwt" cmd
    else if t = "mtls" then
      unshiftIf a.caCert "--mtls-ca-cert"
        (unshiftIf a.keyPath "--mtls-key" (unshiftIf a.certPath "--mtls-cert" cmd))
    else if t = "oauth2" then
      unshiftIf a.clientID "--oauth2-client-id"
        (unshiftIf a.audience "--oauth2-audience"
          (unshiftIf a.privateKey "--oauth2-private-key" (unshiftIf a.issuer "--oauth2-issuer" cmd)))
    else if t = "basic" then
      unshiftIf a.password "--password" (unshiftIf a.username "--username" cmd)
    else if t = "athenz" then
      let cmd := unshiftIf a.url "--athenz" cmd
      let cmd := unshiftIf a.domain "--athenz-domain" cmd
      let cmd := unshiftIf a.tenant "--athenz-tenant" cmd
      let cmd := unshiftIf a.service "--athenz-service" cmd
      let cmd := unshiftIf a.privateKey "--athenz-private-key" cmd
      let cmd := unshiftIf a.keyId "--athenz-key-id" cmd
      let cmd := unshiftIf a.caCert "--athenz-ca-cert" cmd
      unshiftIf a.proxy "--athenz-proxy" cmd
    else cmd
  | none => cmd

/-- Source line 186: `this.#authentication = options.authentication ??
options.auth ?? this.#authentication`. -/
def resolveAuth (opts : CallOptions) (self : PublisherState) : AuthConfig :=
  opts.authentication.getD (opts.auth.getD self.authentication)

/-- One iteration of the message-flags loop (source lines 137-176): the
switch on `key.trim().toLowerCase()`, each case prepending its tokens
onto the command (unrecognized keys fall through unchanged). -/
def applyFlag (cmd : List String) (key : String) (v : OptVal) : Except JsErr (List String) :=
  let kk := jsLower (jsTrim key)
  if kk = "key" then .ok ("--key" :: jsQuote (toJsString v) :: cmd)
  else if kk = "orderingkey" then .ok ("--ordering-key" :: jsQuote (toJsString v) :: cmd)
  else if kk = "eventtime" then .ok ("--event-time" :: jsQuote (toJsString v) :: cmd)
  else if kk = "replicationclusters" then
    match jsIterate v with
    | .error e => .error e
    | .ok xs => .ok (xs.foldl (fun c cluster => "--replication-cluster" :: jsQuote cluster :: c) cmd)
  else if kk = "disablereplication" then .ok ("--disable-replication" :: cmd)
  else if kk = "sequenceid" then .ok ("--sequence-id" :: jsQuote (toJsString v) :: cmd)
  else if kk = "deliverafter" then .ok ("--deliver-after" :: jsQuote (toJsString v) :: cmd)
  else if kk = "deliverat" then .ok ("--deliver-at" :: jsQuote (toJsString v) :: cmd)
  else if kk = "properties" then
    .ok ((jsObjectEntries v).foldl (fun c kv => "--property" :: (kv.1 ++ "=" ++ jsQuote kv.2) :: c) cmd)
  else if kk = "producer-properties" then
    .ok ((jsObjectEntries v).foldl
      (fun c kv => "--producer-property" :: (kv.1 ++ "=" ++ jsQuote kv.2) :: c) cmd)
  else .ok cmd

/-- The whole message-flags loop over the option entries, in order. -/
def applyMessageFlags : List (String × OptVal) → List String → Except JsErr (List String)
  | [], cmd => .ok cmd
  | (k, v) :: rest, cmd =>
    match applyFlag cmd k v with
    | .error e => .error e
    | .ok cmd => applyMessageFlags rest cmd

/-- Source lines 119-184 of `Publisher.#command`: start from the
connection string; unless in test mode, push the escaped payload (the
source calls `message.replace` before the serialization switch, so a
non-string payload throws a TypeError; the switch then reassigns the
local `message`, which is never read again), run the message-flags loop,
then prepend the producer properties, `--timeout` and `--name`. -/
def buildPre (self : PublisherState) (message : Payload) (opts : CallOptions) :
    Except JsErr (List String) :=
  let cmd := [self.connection_string]
  if opts.test then .ok cmd
  else
    match message with
    | .str s =>
      let cmd := cmd ++ [escQuotes s]
      match applyMessageFlags opts.entries cmd with
      | .error e => .error e
      | .ok cmd =>
        let cmd := self.properties.foldl
          (fun c kv => "--producer-property" :: (kv.1 ++ "=" ++ kv.2) :: c) cmd
        let cmd := "--timeout" :: toString self.timeout :: cmd
        .ok ("--name" :: jsQuote self.name :: cmd)
    | _ => .error .typeError

/-- `Publisher.#command` (source lines 118-232): build the pre-auth
vector, resolve and store the authentication (line 186 assigns the
per-call override back into the instance slot), prepend the auth flags
(the `if (this.#authentication)` guard is always taken because the slot
always holds an object), and finally prepend `--test` in test mode.
Returns the vector together with the updated publisher state. -/
def commandBuild (self : PublisherState) (message : Payload) (opts : CallOptions) :
    Except JsErr (List String × PublisherState) :=
  match buildPre self message opts with
  | .error e => .error e
  | .ok cmd =>
    let auth := resolveAuth opts self
    let cmd := authApply auth cmd
    let cmd := if opts.test then "--test" :: cmd else cmd
    .ok (cmd, { self with authentication := auth })

/-- `Publisher.setJWT` (source lines 328-342).  The file read for
path-like tokens is abstracted by the `readFile` oracle; an empty or
whitespace-only token throws before the slot is touched. -/
def setJWT (readFile : String → String) (p : PublisherState) (token : String)
    (allowUnverified : Bool) : Except String PublisherState :=
  if token = "" ∨ (jsTrim token).length = 0 then
    .error "a valid JWT token must be provided"
  else
    let tok := if jsStartsWith token "eyJ" then token else readFile token
    .ok { p with authentication :=
      { type := some "oidc", token := some tok, allowUnverified := allowUnverified } }

/-- `Publisher.setmTLS` (source lines 351-357): the stored object has
only the three path properties; faithfully to the source, no `type`
tag is written. -/
def setmTLS (p : PublisherState) (certPath keyPath caCert : Option String) : PublisherState :=
  { p with authentication := { certPath := certPath, keyPath := keyPath, caCert := caCert } }

/-- `Publisher.setOauth2` (source lines 364-372): stores the `clientId`
property (lower-case d); the builder later reads `clientID`. -/
def setOauth2 (p : PublisherState) (issuer privateKey audience clientId : Option String) :
    PublisherState :=
  { p with authentication :=
    { type := some "oauth2", issuer := issuer, privateKey := privateKey,
      audience := audience, clientId := clientId } }

/-- `Publisher.setBasicAuth` (source lines 380-386). -/
def setBasicAuth (p : PublisherState) (username password : Option String) : PublisherState :=
  { p with authentication := { type := some "basic", username := username, password := password } }

/-- `Publisher.setAthenz` (source lines 393-405). -/
def setAthenz (p : PublisherState) (domain tenant service privateKey url proxy keyId caCert :
    Option String) : PublisherState :=
  { p with authentication :=
    { type := some "athenz", domain := domain, tenant := tenant, service := service,
      privateKey := privateKey, url := url, proxy := proxy, keyId := keyId, caCert := caCert } }

/-- A sample connection string. -/
def connD : String := "pulsar://localhost:6650/persistent/public/default/topic"

/-- A publisher with the constructor defaults. -/
def pubD : PublisherState := { connection_string := connD }

/-- Empty per-call options. -/
def optsEmpty : CallOptions := {}

/-- Per-call options carrying only message-flag entries. -/
def mkOpts (es : List (String × OptVal)) : CallOptions := { entries := es }

/-- Per-call options for a test-mode call. -/
def optsTest : CallOptions := { test := true }

/-- A JavaScript value observed by `setResponse` / the close handler:
either a string (`entry.message_id`), a boolean (`entry.success`), or
`undefined` when the field was absent or never set. -/
inductive JsResp
  | strV (s : String)
  | boolV (b : Bool)
  | undefV
deriving DecidableEq

/-- Reading `entry.message_id`: an absent property is `undefined`. -/
def jsRespOfStr : Option String → JsResp
  | some s => .strV s
  | none => .undefV

/-- Reading `entry.success`: an absent property is `undefined`. -/
def jsRespOfBool : Option Bool → JsResp
  | some b => .boolV b
  | none => .undefV

/-- JavaScript truthiness of the stored response value: the empty
string, `false` and `undefined` are falsy. -/
def truthyResp : JsResp → Bool
  | .strV s => s != ""
  | .boolV b => b
  | .undefV => false

/-- `messageId !== undefined && messageId !== null`. -/
def definedResp : JsResp → Bool
  | .strV _ => true
  | .boolV _ => true
  | .undefV => false

/-- String interpolation `${messageId}` used in the unknown-error text. -/
def jsDisplay : JsResp → String
  | .strV s => s
  | .boolV b => cond b "true" "false"
  | .undefV => "undefined"

/-- `new Date(x)`: records the argument the Date was built from
(`none` models `new Date(undefined)`, an invalid date). -/
structure JsDate where
  arg : Option String
deriving DecidableEq

/-- A decoded protocol record, one JSON object per output chunk
(spec section 6); `none` fields model absent JSON members. -/
structure Entry where
  msg : Option String := none
  time : Option String := none
  level : Option String := none
  error : Option String := none
  message_id : Option String := none
  success : Option Bool := none
  extra : List (String × String) := []
deriving DecidableEq

/-- The record object at the moment it is handed to the observer bus:
`msg` was deleted, `time` was reassigned to a Date, everything else is
still present (the deletes of `time` and `level` happen only after the
emit, and the synchronous listeners see the fields). -/
structure BusRecord where
  msg : Option String := none
  time : Option JsDate := none
  level : Option String := none
  error : Option String := none
  message_id : Option String := none
  success : Option Bool := none
  extra : List (String × String) := []
deriving DecidableEq

/-- Build the forwarded record from the parsed entry, as the handler
leaves it right before `bus.emit(msg, entry)`. -/
def forwardRecord (e : Entry) : BusRecord :=
  { msg := none, time := some ⟨e.time⟩, level := e.level, error := e.error,
    message_id := e.message_id, success := e.success, extra := e.extra }

/-- One emission on the observer bus. -/
inductive BusEvent
  | record (name : Option String) (r : BusRecord)
  | errorEv (message : String)
  | endEv (messageId : JsResp)
deriving DecidableEq

/-- The per-call session state threaded through the data handler:
the `messageId` slot written by `setResponse`, the first rejection (a
settled promise ignores later rejections), whether `child.kill()` was
called, and the bus emissions so far in order. -/
structure SessState where
  messageId : JsResp := .undefV
  earlyReject : Option String := none
  killed : Bool := false
  events : List BusEvent := []
deriving DecidableEq

/-- The non-error path of the handler: forward to the bus when present,
then store the terminal value for a `done` or `test` discriminator. -/
def entryStep (hasBus : Bool) (st : SessState) (e : Entry) : SessState :=
  let st := if hasBus then
    { st with events := st.events ++ [.record e.msg (forwardRecord e)] } else st
  if e.msg = some "done" then { st with messageId := jsRespOfStr e.message_id }
  else if e.msg = some "test" then { st with messageId := jsRespOfBool e.success }
  else st

/-- `Publisher.#process` (source lines 234-271) applied to one decoded
record: a truthy `error` field kills the child and, in test mode,
stores a `false` response; otherwise it emits the error on the bus and
rejects.  Non-error records are forwarded and may store the terminal
value. -/
def processEntry (test hasBus : Bool) (st : SessState) (e : Entry) : SessState :=
  match e.error with
  | some err =>
    if err = "" then entryStep hasBus st e
    else
      let st := { st with killed := true }
      if test then { st with messageId := .boolV false }
      else
        let st := if hasBus then { st with events := st.events ++ [.errorEv err] } else st
        { st with earlyReject := st.earlyReject.orElse (fun _ => some err) }
  | none => entryStep hasBus st e

/-- The final outcome of the publish promise. -/
inductive Outcome
  | resolved (v : JsResp)
  | rejected (message : String)
deriving DecidableEq

/-- `${code}` for the exit code; `none` models a null code (killed by
signal). -/
def exitCodeStr : Option Int → String
  | some n => toString n
  | none => "null"

/-- The close handler of `Publisher.publish` (source lines 290-308); a
promise already rejected by an error record ignores the handler's own
settle calls.  In test mode any defined response resolves regardless of
the exit code; otherwise a non-zero code rejects, a falsy response
rejects with the unknown-error text, and a truthy response emits `end`
and resolves. -/
def closeHandler (test hasBus : Bool) (st : SessState) (code : Option Int) :
    Outcome × List BusEvent :=
  match st.earlyReject with
  | some m => (.rejected m, st.events)
  | none =>
    if test && definedResp st.messageId then (.resolved st.messageId, st.events)
    else if code ≠ some 0 then
      (.rejected ("pulsar-publish process exited with code " ++ exitCodeStr code), st.events)
    else if !truthyResp st.messageId then
      (.rejected ("message ID (" ++ jsDisplay st.messageId ++
        ") was not returned from pulsar-publish (unknown error)"), st.events)
    else
      let evs := if hasBus then st.events ++ [.endEv st.messageId] else st.events
      (.resolved st.messageId, evs)

/-- A whole subprocess run: fold the handler over the decoded records in
arrival order, then apply the close handler to the exit code. -/
def runPublishFull (test hasBus : Bool) (records : List Entry) (code : Option Int) :
    Outcome × List BusEvent :=
  closeHandler test hasBus (records.foldl (processEntry test hasBus) {}) code

/-- The promise outcome of a run. -/
def runPublish (test hasBus : Bool) (records : List Entry) (code : Option Int) : Outcome :=
  (runPublishFull test hasBus records code).1

/-- A sample ISO timestamp. -/
def t0 : String := "2025-04-05T12:34:56.789Z"

/-- A terminal done record carrying a message identifier. -/
def mkDone (id : String) : Entry := { msg := some "done", time := some t0, message_id := some id }

/-- A done record with no `message_id` member at all. -/
def mkDoneNoId : Entry := { msg := some "done", time := some t0 }

/-- A test-result record. -/
def mkTestRec (success : Bool) : Entry :=
  { msg := some "test", time := some t0, success := some success }

/-- An error record. -/
def mkErr (m : String) : Entry := { msg := some "x", time := some t0, error := some m }

/-- An informational log record. -/
def mkLog : Entry := { msg := some "connecting", time := some t0, level := some "info" }

/-- The record's `error` field is falsy (absent or the empty string). -/
def errorFalsy (e : Entry) : Prop := e.error = none ∨ e.error = some ""

/-- A record that is neither an error nor a terminal success record. -/
def nonTerminal (e : Entry) : Prop :=
  errorFalsy e ∧ e.msg ≠ some "done" ∧ e.msg ≠ some "test"

instance (e : Entry) : Decidable (errorFalsy e) := by unfold errorFalsy; infer_instance

instance (e : Entry) : Decidable (nonTerminal e) := by unfold nonTerminal; infer_instance

/-- The tokens `unshiftIf` prepends, in isolation. -/
def unshiftVal (v : Option String) (flag : String) : List String :=
  match v with
  | some s => if s = "" then [] else [flag, s]
  | none => []

theorem unshiftIf_eq (v : Option String) (flag : String) (cmd : List String) :
    unshiftIf v flag cmd = unshiftVal v flag ++ cmd := by
  cases v with
  | none => rfl
  | some s =>
    by_cases h : s = "" <;> simp [unshiftIf, unshiftVal, h]

/-- The authorization flags emitted for a configuration, in isolation. -/
def authFlags (a : AuthConfig) : List String := authApply a []

theorem authApply_append (a : AuthConfig) (cmd : List String) :
    authApply a cmd = authFlags a ++ cmd := by
  unfold authFlags authApply
  cases htype : a.type with
  | none => simp
  | some t =>
    by_cases h1 : t = "oidc"
    · cases hu : a.allowUnverified <;>
        simp [h1, hu, unshiftIf_eq, List.append_assoc]
    · by_cases h2 : t = "mtls"
      · simp [h1, h2, unshiftIf_eq, List.append_assoc]
      · by_cases h3 : t = "oauth2"
        · simp [h1, h2, h3, unshiftIf_eq, List.append_assoc]
        · by_cases h4 : t = "basic"
          · simp [h1, h2, h3, h4, unshiftIf_eq, List.append_assoc]
          · by_cases h5 : t = "athenz"
            · simp [h1, h2, h3, h4, h5, unshiftIf_eq, List.append_assoc]
            · simp [h1, h2, h3, h4, h5]

/-- Flatten a token-list per element, reversing the element order: the
accumulation pattern produced by unshifting inside a loop. -/
def revFlat {α : Type} (f : α → List String) : List α → List String
  | [] => []
  | x :: t => revFlat f t ++ f x

/-- Flatten a token-list per element in order. -/
def listFlat {α : Type} (f : α → List String) : List α → List String
  | [] => []
  | x :: t => f x ++ listFlat f t

theorem listFlat_append {α : Type} (f : α → List String) (l1 l2 : List α) :
    listFlat f (l1 ++ l2) = listFlat f l1 ++ listFlat f l2 := by
  induction l1 with
  | nil => rfl
  | cons x t ih => simp [listFlat, ih]

theorem revFlat_eq_reverse {α : Type} (f : α → List String) (l : List α) :
    revFlat f l = listFlat f l.reverse := by
  induction l with
  | nil => rfl
  | cons x t ih => simp [revFlat, ih, listFlat_append, listFlat]

theorem foldl_pair_prepend {α : Type} (flag : String) (g : α → String) (l : List α)
    (cmd : List String) :
    l.foldl (fun c x => flag :: g x :: c) cmd = revFlat (fun x => [flag, g x]) l ++ cmd := by
  induction l generalizing cmd with
  | nil => rfl
  | cons x t ih => simp [List.foldl_cons, ih, revFlat, List.append_assoc]

theorem applyFlag_prepends (cmd : List String) (k : String) (v : OptVal) (c' : List String)
    (h : applyFlag cmd k v = .ok c') : ∃ p, c' = p ++ cmd := by
  simp only [applyFlag] at h
  repeat' split at h
  all_goals try exact Except.noConfusion h
  all_goals injection h with h
  all_goals subst h
  all_goals first
    | exact ⟨[], rfl⟩
    | exact ⟨[_], rfl⟩
    | exact ⟨[_, _], rfl⟩
    | exact ⟨_, foldl_pair_prepend _ _ _ _⟩

theorem applyMessageFlags_prepends :
    ∀ (es : List (String × OptVal)) (cmd c' : List String),
      applyMessageFlags es cmd = .ok c' → ∃ p, c' = p ++ cmd := by
  intro es
  induction es with
  | nil =>
    intro cmd c' h
    injection h with h
    exact ⟨[], h.symm⟩
  | cons kv rest ih =>
    intro cmd c' h
    simp only [applyMessageFlags] at h
    split at h
    · injection h
    · next cmdMid hflag =>
      obtain ⟨p2, hp2⟩ := ih _ _ h
      obtain ⟨p1, hp1⟩ := applyFlag_prepends _ _ _ _ hflag
      exact ⟨p2 ++ p1, by simp [hp2, hp1, List.append_assoc]⟩

theorem entryStep_preserves (hasBus : Bool) (st : SessState) (e : Entry)
    (hd : e.msg ≠ some "done") (ht : e.msg ≠ some "test") :
    (entryStep hasBus st e).messageId = st.messageId ∧
    (entryStep hasBus st e).earlyReject = st.earlyReject := by
  cases hasBus <;> simp [entryStep, hd, ht]

theorem processEntry_nonTerminal (test hasBus : Bool) (st : SessState) (e : Entry)
    (h : nonTerminal e) :
    (processEntry test hasBus st e).messageId = st.messageId ∧
    (processEntry test hasBus st e).earlyReject = st.earlyReject := by
  obtain ⟨hf, hd, ht⟩ := h
  rcases hf with hf | hf <;>
    simpa [processEntry, hf] using entryStep_preserves hasBus st e hd ht

theorem foldl_nonTerminal (test hasBus : Bool) (logs : List Entry) :
    ∀ (st : SessState), (∀ e ∈ logs, nonTerminal e) →
      (logs.foldl (processEntry test hasBus) st).messageId = st.messageId ∧
      (logs.foldl (processEntry test hasBus) st).earlyReject = st.earlyReject := by
  induction logs with
  | nil => intro st _; exact ⟨rfl, rfl⟩
  | cons e t ih =>
    intro st hall
    have he := hall e (List.mem_cons_self e t)
    have hrest := ih (processEntry test hasBus st e)
      (fun x hx => hall x (List.mem_cons_of_mem _ hx))
    have hp := processEntry_nonTerminal test hasBus st e he
    simp only [List.foldl_cons]
    exact ⟨hrest.1.trans hp.1, hrest.2.trans hp.2⟩

/-- Claim C1 (code bug): the spec says a plain-object payload is JSON
serialized (with internal double quotes escaped) before the escaped
token is placed into the vector as the second positional.  The source
instead pushes `message.replace(...)` BEFORE the serialization switch
(src/index.js lines 122-134), and `.replace` is not a function on an
object, so building the command for any object payload throws a
TypeError and no vector is produced.  Evaluated at the failing input
`{"a": 1}`. -/
theorem commandBuild_object_payload_typeerror :
    commandBuild pubD (.obj (JsonVal.objJ [("a", JsonVal.numJ 1)])) optsEmpty =
      .error .typeError := rfl

/-- Claim C2 (code bug): after `setmTLS` with non-empty paths the claim
expects `--mtls-cert`, `--mtls-key` and `--mtls-ca-cert` in the vector,
and after `setOauth2` with a present clientId it expects
`--oauth2-client-id`.  The source's `setmTLS` stores no `type: 'mtls'`
tag, so the builder's mtls case never matches and no mtls flag is
emitted; and `setOauth2` stores `clientId` while the builder reads
`clientID`, so `--oauth2-client-id` is never emitted.  Both failures
evaluated here on concrete inputs (test mode keeps the vectors small;
the same auth switch runs in both modes). -/
theorem commandBuild_setter_flags_missing :
    commandBuild (setmTLS pubD (some "cert.pem") (some "key.pem") (some "ca.pem"))
        (.str "_") optsTest =
      .ok (["--test", connD],
        setmTLS pubD (some "cert.pem") (some "key.pem") (some "ca.pem")) ∧
    (["--test", connD].contains "--mtls-cert") = false ∧
    commandBuild (setOauth2 pubD (some "https://issuer") (some "pk.pem") (some "aud")
        (some "cid")) (.str "_") optsTest =
      .ok (["--test", "--oauth2-audience", "aud", "--oauth2-private-key", "pk.pem",
            "--oauth2-issuer", "https://issuer", connD],
        setOauth2 pubD (some "https://issuer") (some "pk.pem") (some "aud") (some "cid")) ∧
    (["--test", "--oauth2-audience", "aud", "--oauth2-private-key", "pk.pem",
      "--oauth2-issuer", "https://issuer", connD].contains "--oauth2-client-id") = false :=
  ⟨rfl, by decide, rfl, by decide⟩

/-- Claim C3, counterexample: with `replicationClusters: ["a","b"]` the
claim says the two `--replication-cluster` occurrences appear in input
order; the built vector has the `"b"` occurrence before the `"a"`
occurrence, because the loop unshifts each pair onto the front. -/
theorem replicationClusters_order_counterexample :
    commandBuild pubD (.str "m")
        (mkOpts [("replicationClusters", OptVal.strList ["a", "b"])]) =
      .ok (["--name", "\"manual-producer\"", "--timeout", "30",
            "--replication-cluster", "\"b\"", "--replication-cluster", "\"a\"",
            connD, "m"], pubD) ∧
    List.findIdx (fun tok => tok == "\"b\"")
        ["--name", "\"manual-producer\"", "--timeout", "30",
         "--replication-cluster", "\"b\"", "--replication-cluster", "\"a\"",
         connD, "m"] <
      List.findIdx (fun tok => tok == "\"a\"")
        ["--name", "\"manual-producer\"", "--timeout", "30",
         "--replication-cluster", "\"b\"", "--replication-cluster", "\"a\"",
         connD, "m"] :=
  ⟨rfl, by decide⟩

/-- Claim C3, amended: the built vector contains one
`--replication-cluster` flag occurrence per list entry, but the
occurrences appear in REVERSE input order (each pair is unshifted onto
the front of the vector), shown here for every cluster list in an
otherwise-default call. -/
theorem replicationClusters_reverse_order (clusters : List String) :
    commandBuild pubD (.str "m") (mkOpts [("replicationClusters", OptVal.strList clusters)]) =
      .ok (["--name", "\"manual-producer\"", "--timeout", "30"] ++
        listFlat (fun c => ["--replication-cluster", jsQuote c]) clusters.reverse ++
        [connD, "m"], pubD) := by
  have h1 : commandBuild pubD (.str "m")
      (mkOpts [("replicationClusters", OptVal.strList clusters)]) =
      .ok ("--name" :: "\"manual-producer\"" :: "--timeout" :: "30" ::
        clusters.foldl (fun c x => "--replication-cluster" :: jsQuote x :: c)
          [connD, "m"], pubD) := rfl
  rw [h1, foldl_pair_prepend, revFlat_eq_reverse]
  rfl

/-- Claim C4: in normal (non-test) mode, on subprocess exit with code 0,
publish resolves with the message identifier carried by a previously
observed done record, and rejects with the unknown-error failure when no
terminal success record was observed during the run. -/
theorem publish_exit_zero_resolution (logs : List Entry) (b : Bool) (id : String)
    (hlogs : ∀ e ∈ logs, nonTerminal e) (hid : id ≠ "") :
    runPublish false b (logs ++ [mkDone id]) (some 0) = .resolved (.strV id) ∧
    runPublish false b logs (some 0) =
      .rejected "message ID (undefined) was not returned from pulsar-publish (unknown error)" := by
  have hst := foldl_nonTerminal false b logs {} hlogs
  constructor
  · unfold runPublish runPublishFull
    rw [List.foldl_append]
    cases b <;>
      simp [processEntry, mkDone, entryStep, closeHandler, hst.1, hst.2,
        truthyResp, jsRespOfStr, hid]
  · unfold runPublish runPublishFull
    simp [closeHandler, hst.1, hst.2, truthyResp, definedResp, jsDisplay]

/-- Witness for C4 at a concrete run: one informational record followed
by a done record and exit 0 resolves with the identifier; the same run
with no done record is rejected with the unknown-error failure. -/
theorem publish_exit_zero_resolution_witness :
    runPublish false true ([mkLog] ++ [mkDone "abc-123"]) (some 0) =
      .resolved (.strV "abc-123") ∧
    runPublish false true [mkLog] (some 0) =
      .rejected "message ID (undefined) was not returned from pulsar-publish (unknown error)" :=
  publish_exit_zero_resolution [mkLog] true "abc-123" (by decide) (by decide)

/-- Claim C6: in test mode, a test-result record with success false (or
an error record) followed by subprocess exit with a non-zero code — or
any code at all — makes the call resolve false rather than reject. -/
theorem test_mode_resolves_false (logs logs2 : List Entry) (c : Option Int) (b : Bool)
    (h1 : ∀ e ∈ logs, nonTerminal e) (h2 : ∀ e ∈ logs2, nonTerminal e) :
    runPublish true b (logs ++ mkTestRec false :: logs2) c = .resolved (.boolV false) ∧
    runPublish true b (logs ++ mkErr "boom" :: logs2) c = .resolved (.boolV false) := by
  have hstA := foldl_nonTerminal true b logs {} h1
  constructor
  · unfold runPublish runPublishFull
    rw [List.foldl_append, List.foldl_cons]
    have hmid1 : (processEntry true b (logs.foldl (processEntry true b) {})
        (mkTestRec false)).messageId = .boolV false := by
      cases b <;> simp [processEntry, mkTestRec, entryStep, jsRespOfBool]
    have hmid2 : (processEntry true b (logs.foldl (processEntry true b) {})
        (mkTestRec false)).earlyReject =
        (logs.foldl (processEntry true b) {}).earlyReject := by
      cases b <;> simp [processEntry, mkTestRec, entryStep]
    have hpost := foldl_nonTerminal true b logs2
      (processEntry true b (logs.foldl (processEntry true b) {}) (mkTestRec false)) h2
    simp [closeHandler, hpost.1, hpost.2, hmid1, hmid2, hstA.2, definedResp]
  · unfold runPublish runPublishFull
    rw [List.foldl_append, List.foldl_cons]
    have hmid1 : (processEntry true b (logs.foldl (processEntry true b) {})
        (mkErr "boom")).messageId = .boolV false := by
      cases b <;> simp [processEntry, mkErr]
    have hmid2 : (processEntry true b (logs.foldl (processEntry true b) {})
        (mkErr "boom")).earlyReject =
        (logs.foldl (processEntry true b) {}).earlyReject := by
      cases b <;> simp [processEntry, mkErr]
    have hpost := foldl_nonTerminal true b logs2
      (processEntry true b (logs.foldl (processEntry true b) {}) (mkErr "boom")) h2
    simp [closeHandler, hpost.1, hpost.2, hmid1, hmid2, hstA.2, definedResp]

/-- Witness for C6 at a concrete run: a failing test record (or an error
record) followed by exit code 7 resolves false in test mode. -/
theorem test_mode_resolves_false_witness :
    runPublish true true ([mkLog] ++ mkTestRec false :: [mkLog]) (some 7) =
      .resolved (.boolV false) ∧
    runPublish true true ([mkLog] ++ mkErr "boom" :: [mkLog]) (some 7) =
      .resolved (.boolV false) :=
  test_mode_resolves_false [mkLog] [mkLog] (some 7) true (by decide) (by decide)

/-- Claim C10: in normal mode, a done record whose message identifier is
the empty string — or one with no identifier at all — followed by exit
code 0 makes publish reject with the unknown-error failure: resolution
requires a truthy stored identifier, not merely an observed done
record. -/
theorem done_falsy_id_rejects (logs : List Entry) (b : Bool)
    (h : ∀ e ∈ logs, nonTerminal e) :
    runPublish false b (logs ++ [mkDone ""]) (some 0) =
      .rejected "message ID () was not returned from pulsar-publish (unknown error)" ∧
    runPublish false b (logs ++ [mkDoneNoId]) (some 0) =
      .rejected "message ID (undefined) was not returned from pulsar-publish (unknown error)" := by
  have hst := foldl_nonTerminal false b logs {} h
  constructor <;>
  · unfold runPublish runPublishFull
    rw [List.foldl_append]
    cases b <;>
      simp [processEntry, mkDone, mkDoneNoId, entryStep, closeHandler, hst.1, hst.2,
        truthyResp, jsRespOfStr, jsDisplay]

/-- Witness for C10 at a concrete run: a done record with an empty (or
missing) identifier and exit 0 rejects with the unknown-error text. -/
theorem done_falsy_id_rejects_witness :
    runPublish false true ([mkLog] ++ [mkDone ""]) (some 0) =
      .rejected "message ID () was not returned from pulsar-publish (unknown error)" ∧
    runPublish false true ([mkLog] ++ [mkDoneNoId]) (some 0) =
      .rejected "message ID (undefined) was not returned from pulsar-publish (unknown error)" :=
  done_falsy_id_rejects [mkLog] true (by decide)

/-- A basic-auth configuration installed before the counterexample call. -/
def basicAuthCfg : AuthConfig :=
  { type := some "basic", username := some "u", password := some "p" }

/-- A per-call override handed in through `options.authentication`. -/
def mtlsOverrideCfg : AuthConfig :=
  { type := some "mtls", certPath := some "c.pem", keyPath := some "k.pem",
    caCert := some "ca.pem" }

/-- Claim C5, counterexample: the claim says building the vector never
mutates the Publisher's stored authentication regardless of what keys
appear in the per-call options.  Source line 186 assigns
`options.authentication ?? options.auth ?? this.#authentication` back
into the instance slot, so a call carrying `options.authentication`
replaces the stored configuration: here a basic-auth publisher ends the
call holding the mtls override. -/
theorem auth_slot_mutated_counterexample :
    (commandBuild { pubD with authentication := basicAuthCfg } (.str "_")
        { optsTest with authentication := some mtlsOverrideCfg }).map
      (fun r => r.2.authentication) = .ok mtlsOverrideCfg ∧
    mtlsOverrideCfg ≠ basicAuthCfg :=
  ⟨rfl, by decide⟩

/-- Claim C5, amended: when the per-call options carry neither an
`authentication` nor an `auth` key, building the vector leaves the
stored configuration unchanged; a present key overwrites it and the
overwrite persists after the call. -/
theorem auth_slot_preserved_without_override (pub : PublisherState) (m : Payload)
    (opts : CallOptions) (h1 : opts.authentication = none) (h2 : opts.auth = none)
    (v : List String) (st : PublisherState)
    (hok : commandBuild pub m opts = .ok (v, st)) :
    st.authentication = pub.authentication := by
  unfold commandBuild at hok
  cases hpre : buildPre pub m opts with
  | error e => rw [hpre] at hok; exact Except.noConfusion hok
  | ok cmd =>
    rw [hpre] at hok
    injection hok with hok
    rw [Prod.mk.injEq] at hok
    obtain ⟨hv, hst⟩ := hok
    rw [← hst]
    simp [resolveAuth, h1, h2]

/-- Witness for the amended C5 at a concrete call without an override. -/
theorem auth_slot_preserved_without_override_witness :
    pubD.authentication = pubD.authentication :=
  auth_slot_preserved_without_override pubD (.str "x") optsEmpty rfl rfl
    ["--name", "\"manual-producer\"", "--timeout", "30", connD, "x"] pubD rfl

/-- Claim C9: calling setJWT with an empty or whitespace-only token
throws the invalid-auth-input error synchronously at configuration time
(the setter spawns no subprocess), and the error return means the
stored AuthorizationConfig is never reassigned. -/
theorem setjwt_empty_token_raises (readFile : String → String) (p : PublisherState)
    (tok : String) (allowUnverified : Bool) (h : jsTrim tok = "") :
    setJWT readFile p tok allowUnverified = .error "a valid JWT token must be provided" := by
  unfold setJWT
  rw [if_pos (Or.inr (by rw [h]; rfl))]

/-- Witness for C9 at the whitespace-only token from the spec. -/
theorem setjwt_empty_token_raises_witness :
    jsTrim "   " = "" ∧
    setJWT (fun _ => "token-data") pubD "   " false =
      .error "a valid JWT token must be provided" :=
  ⟨rfl, setjwt_empty_token_raises (fun _ => "token-data") pubD "   " false rfl⟩

/-- A non-terminal progress record carrying level and a freeform field. -/
def eProg : Entry :=
  { msg := some "progress", time := some t0, level := some "info",
    extra := [("stage", "connect")] }

theorem entryStep_events_bus (st : SessState) (e : Entry) :
    (entryStep true st e).events = st.events ++ [.record e.msg (forwardRecord e)] := by
  simp only [entryStep, if_true]
  repeat' split
  all_goals rfl

/-- Claim C8, counterexample: the claim says the record handed to the
bus has time, level and msg removed and the bus never receives the raw
level field.  The handler deletes only `msg` before `bus.emit`; the
forwarded record still carries the raw `level` and the (converted)
`time` — those two fields are deleted only after the emit. -/
theorem bus_record_keeps_level_counterexample :
    (processEntry false true {} eProg).events =
      [.record (some "progress") (forwardRecord eProg)] ∧
    (forwardRecord eProg).level = some "info" ∧
    (forwardRecord eProg).time = some ⟨some t0⟩ :=
  ⟨rfl, rfl, rfl⟩

/-- Claim C8, amended: for every non-error record forwarded to the bus,
only `msg` is stripped before forwarding; the timestamp is converted to
a Date (native instant) but kept on the record, and `level` is
forwarded unchanged — `time` and `level` are deleted from the record
only after the bus has received it. -/
theorem bus_forward_only_msg_stripped (test : Bool) (st : SessState) (e : Entry)
    (h : errorFalsy e) :
    (processEntry test true st e).events =
      st.events ++ [.record e.msg
        { msg := none, time := some ⟨e.time⟩, level := e.level, error := e.error,
          message_id := e.message_id, success := e.success, extra := e.extra }] := by
  have hstep := entryStep_events_bus st e
  rcases h with h | h <;> simp [processEntry, h, hstep, forwardRecord]

/-- Witness for the amended C8 on a concrete informational record. -/
theorem bus_forward_only_msg_stripped_witness :
    (processEntry false true {} mkLog).events =
      ({} : SessState).events ++ [.record mkLog.msg
        { msg := none, time := some ⟨mkLog.time⟩, level := mkLog.level, error := mkLog.error,
          message_id := mkLog.message_id, success := mkLog.success, extra := mkLog.extra }] :=
  bus_forward_only_msg_stripped false {} mkLog (Or.inl rfl)

/-- Claim C7: whenever the builder produces a vector, the connection
target is the first positional argument — the vector decomposes as a
flag/value prefix followed by the connection string and (in normal
mode) the escaped payload; in test mode no payload positional is
present at all and `--test` is the first element of the vector. -/
theorem connection_first_positional (pub : PublisherState) (m : Payload) (opts : CallOptions)
    (v : List String) (st : PublisherState)
    (hok : commandBuild pub m opts = .ok (v, st)) :
    (opts.test = true → ∃ fl, v = "--test" :: fl ++ [pub.connection_string]) ∧
    (opts.test = false →
      ∃ fl s, m = .str s ∧ v = fl ++ [pub.connection_string, escQuotes s]) := by
  unfold commandBuild at hok
  cases hpre : buildPre pub m opts with
  | error e => rw [hpre] at hok; exact Except.noConfusion hok
  | ok cmd =>
    rw [hpre] at hok
    injection hok with hok
    rw [Prod.mk.injEq] at hok
    obtain ⟨hv, hst⟩ := hok
    cases htest : opts.test with
    | true =>
      refine ⟨fun _ => ?_, fun hfalse => Bool.noConfusion hfalse⟩
      simp only [buildPre, htest, if_true] at hpre
      injection hpre with hpre
      subst hpre
      rw [htest] at hv
      simp only [if_true] at hv
      exact ⟨authFlags (resolveAuth opts pub), by rw [← hv, authApply_append]; rfl⟩
    | false =>
      refine ⟨fun htrue => Bool.noConfusion htrue, fun _ => ?_⟩
      rw [htest] at hv
      simp only [Bool.false_eq_true, if_false] at hv
      simp only [buildPre, htest, Bool.false_eq_true, if_false] at hpre
      cases m with
      | str s =>
        simp only [List.cons_append, List.nil_append] at hpre
        cases happ : applyMessageFlags opts.entries [pub.connection_string, escQuotes s] with
        | error e2 => rw [happ] at hpre; exact Except.noConfusion hpre
        | ok c2 =>
          rw [happ] at hpre
          injection hpre with hpre
          subst hpre
          obtain ⟨p, hp⟩ := applyMessageFlags_prepends _ _ _ happ
          refine ⟨authFlags (resolveAuth opts pub) ++ "--name" :: jsQuote pub.name ::
            "--timeout" :: toString pub.timeout ::
            (revFlat (fun kv => ["--producer-property", kv.1 ++ "=" ++ kv.2])
              pub.properties ++ p), s, rfl, ?_⟩
          rw [← hv, authApply_append, hp, foldl_pair_prepend]
          simp [List.append_assoc]
      | obj j => exact Except.noConfusion hpre
      | num n => exact Except.noConfusion hpre
      | boolP b => exact Except.noConfusion hpre

/-- Witness for C7: a concrete test-mode build where the vector starts
with the test flag and ends with the connection string. -/
theorem connection_first_positional_witness :
    (optsTest.test = true → ∃ fl, ["--test", connD] = "--test" :: fl ++
      [pubD.connection_string]) ∧
    (optsTest.test = false → ∃ fl s, (Payload.str "x") = .str s ∧
      ["--test", connD] = fl ++ [pubD.connection_string, escQuotes s]) :=
  connection_first_positional pubD (.str "x") optsTest ["--test", connD] pubD rfl
